import Mathlib

/-!
# SrvcTame ("Process Tamer") — shallow embedding and verification

This file embeds the core of `srvctame.c` (configuration change detection,
rule-set loading, and the process-priority enforcement loop) in Lean 4 and
proves or refutes the frozen specification claims about it.

Machine integers are modelled as `Nat` reduced modulo `2 ^ 32` where the C
code relies on 32-bit wrap-around.  External Windows APIs
(`GetPrivateProfileString`, `GetPrivateProfileInt`, file reading,
`CreateToolhelp32Snapshot`, `OpenProcess`, `GetPriorityClass`,
`SetPriorityClass`) are modelled as oracle fields of explicit environment
structures, and each OS side effect performed by the embedded code is
recorded in an explicit call trace so that claims about the number and the
arguments of such calls can be stated.

The linked-list macros (`LL_APPEND`, `LL_FOREACH`, `LL_FOREACH_SAFE`,
`LL_COUNT`) come from `llist.h`, which is not part of the provided sources.
Modelled from the spec: the rule list is an ordered sequence; `LL_APPEND`
appends at the tail, `LL_FOREACH` visits the elements in stored order, and
`LL_COUNT` returns the number of elements.  A Lean `List` with `++ [x]`
append, structural recursion and `List.length` realises exactly that.
-/

/-- C constant `SRVC_TAME_SERVICE_DISPLAY_NAME`. -/
def SRVC_TAME_SERVICE_DISPLAY_NAME : String := "Process Tamer"

/-- C constant `SRVC_TAME_SERVICE_DESCRIPTION`. -/
def SRVC_TAME_SERVICE_DESCRIPTION : String := "Windows process taming service"

/-- C constant `SRVC_TAME_INTERVAL` (10 seconds, in milliseconds). -/
def SRVC_TAME_INTERVAL : Nat := 10000

/-- Windows constant `IDLE_PRIORITY_CLASS` (0x40). -/
def IDLE_PRIORITY_CLASS : Nat := 0x40

/-! ## ChecksumGate: `Tamer_CRC2` and `Tamer_GetFileCRC` -/

/-- One inner-loop iteration of `Tamer_CRC2`:
`mask = (crc & 1) ? 0xFFFFFFFF : 0; crc = (crc >> 1) ^ (0xEDB88320 & mask)`. -/
def crcRound (crc : Nat) : Nat :=
  let mask : Nat := if crc % 2 = 1 then 0xFFFFFFFF else 0
  ((crc / 2) ^^^ (0xEDB88320 &&& mask)) % 2 ^ 32

/-- Folding one input byte into the register: `crc = crc ^ byte` followed by
the eight bit iterations (`for j = 7; j >= 0; j--`). -/
def crcByte (crc b : Nat) : Nat :=
  crcRound^[8] ((crc ^^^ b % 256) % 2 ^ 32)

/-- `Tamer_CRC2`: CRC-32 of a byte buffer, initial register `0xFFFFFFFF`,
returning the final one's complement `~crc` (as a 32-bit value). -/
def Tamer_CRC2 (data : List Nat) : Nat :=
  (data.foldl crcByte 0xFFFFFFFF) ^^^ 0xFFFFFFFF

/-- The configuration source as seen by the embedded code.  `file` is the
raw byte content of the resolved `.ini` file, `none` when the file cannot
be opened or read (the `fopen`/`malloc`/`fread` failure paths of
`Tamer_GetFileCRC`).  The remaining fields are the Windows profile-string
oracles: `svcGetString key default` / `svcGetInt key default` read section
`[Service]`, `procGetString` / `procGetInt` read section `[Processes]`,
each returning the stored value or the supplied default. -/
structure ConfigSource where
  file : Option (List Nat)
  svcGetString : String → String → String
  svcGetInt : String → Nat → Nat
  procGetString : String → String → String
  procGetInt : String → Int → Int

/-- `Tamer_GetFileCRC`: CRC32 of the file contents, or 0 on error.  An
unreadable file yields 0; an empty readable file also yields 0 because
`Tamer_CRC2` of the empty buffer is 0. -/
def Tamer_GetFileCRC (file : Option (List Nat)) : Nat :=
  match file with
  | none => 0
  | some bytes => Tamer_CRC2 bytes

/-! ## Data model: `Tamer_Proc` and `Tamer_Config` -/

/-- One node of the `Tamer_Proc` linked list: a process image name and the
priority parsed from `Process{N}_Prio` (C `int`). -/
structure Tamer_Proc where
  procName : String
  priority : Int
deriving DecidableEq

/-- `Tamer_Config` (the session configuration global).  The C field name
`serviceDispalyName` (sic) is kept.  `filePath` resolution is external glue
(`GetWindowsDirectory` / `GetCurrentDirectory`) and is not modelled; the
resolved source is passed in as a `ConfigSource`. -/
structure Tamer_Config where
  serviceDispalyName : String
  serviceDescription : String
  interval : Nat
  crc32 : Nat
  procList : List Tamer_Proc
deriving DecidableEq

/-- The zeroed configuration produced by the first-run
`malloc` + `memset(gTamer.config, 0, sizeof(Tamer_Config))`. -/
def initConfig : Tamer_Config :=
  { serviceDispalyName := ""
    serviceDescription := ""
    interval := 0
    crc32 := 0
    procList := [] }

/-! ## RuleSetLoader: the `while (1)` rule-construction loop -/

/-- The rule-list construction loop of `Tamer_ReadConfig`: for
`processIndex = idx, idx+1, …` read `Process{i}_Name`; if
`GetPrivateProfileString` copies zero characters, stop; otherwise read
`Process{i}_Prio` (default 0) and append the node.  The C loop is unbounded
(`while (1)`); `fuel` bounds the recursion and any fuel at least the index
of the first missing name yields the loop's result. -/
def buildProcList (src : ConfigSource) (idx : Nat) : Nat → List Tamer_Proc
  | 0 => []
  | fuel + 1 =>
    let name := src.procGetString ("Process" ++ toString idx ++ "_Name") ""
    if name.length = 0 then []
    else
      { procName := name
        priority := src.procGetInt ("Process" ++ toString idx ++ "_Prio") 0 } ::
        buildProcList src (idx + 1) fuel

/-- `Tamer_ReadConfig`: returns the updated configuration and the C return
value (number of items in the process list, or 0 on error).

Control flow of the source: compute the file CRC; if it is 0, `break` with
`retVal` still 0.  If the CRC differs from the stored one, re-read the
`[Service]` settings, free the old process list, store the new CRC, and
rebuild the list from `Process{N}_Name` / `Process{N}_Prio`; in every
non-error path the return value is `LL_COUNT` of the (possibly rebuilt)
list. -/
def Tamer_ReadConfig (cfg : Tamer_Config) (src : ConfigSource) (fuel : Nat) :
    Tamer_Config × Nat :=
  let crc32 := Tamer_GetFileCRC src.file
  if crc32 = 0 then (cfg, 0)
  else if crc32 ≠ cfg.crc32 then
    let cfg2 : Tamer_Config :=
      { serviceDispalyName := src.svcGetString "DisplayName" SRVC_TAME_SERVICE_DISPLAY_NAME
        serviceDescription := src.svcGetString "Description" SRVC_TAME_SERVICE_DESCRIPTION
        interval := src.svcGetInt "Interval" SRVC_TAME_INTERVAL
        crc32 := crc32
        procList := buildProcList src 1 fuel }
    (cfg2, cfg2.procList.length)
  else (cfg, cfg.procList.length)

/-! ## ProcessEnforcer: `Tamer_SetProcessPriority` and the pass -/

/-- One `PROCESSENTRY32` record of a toolhelp snapshot. -/
structure ProcEntry where
  th32ProcessID : Nat
  szExeFile : String
deriving DecidableEq

/-- The host process table as seen by the embedded code: `snapshot` is what
`CreateToolhelp32Snapshot` + `Process32First/Next` enumerate, `canOpen`
models `OpenProcess(PROCESS_ALL_ACCESS, FALSE, pid)` succeeding, and
`getPriorityClass` models `GetPriorityClass` on an opened process. -/
structure ProcWorld where
  snapshot : List ProcEntry
  canOpen : Nat → Bool
  getPriorityClass : Nat → Nat

/-- Trace of the OS calls the enforcement code performs, in order. -/
inductive OsCall where
  | takeSnapshot
  | openProc (pid : Nat) (ok : Bool)
  | getPrio (pid : Nat) (prio : Nat)
  | setPrio (pid : Nat) (prio : Nat)
deriving DecidableEq

/-- Effect of a successful `SetPriorityClass(hProcess, prio)` on the world:
only the priority of that process changes; the snapshot and openability are
untouched. -/
def setPriorityWorld (w : ProcWorld) (pid prio : Nat) : ProcWorld :=
  { w with getPriorityClass := fun p => if p = pid then prio else w.getPriorityClass p }

/-- `_stricmp(a, b) == 0`: case-insensitive exact string equality,
compared character by character after lower-casing. -/
def striEq (a b : String) : Bool :=
  a.data.map Char.toLower == b.data.map Char.toLower

/-- Body of the `while (hRes)` loop of `Tamer_SetProcessPriority` for one
snapshot entry: if the image name matches the rule case-insensitively,
`OpenProcess`; on success, read the priority class and, if it differs from
`IDLE_PRIORITY_CLASS`, set it to `IDLE_PRIORITY_CLASS`. -/
def enforceEntry (w : ProcWorld) (procName : String) (e : ProcEntry) :
    ProcWorld × List OsCall :=
  if striEq e.szExeFile procName then
    if w.canOpen e.th32ProcessID then
      let cur := w.getPriorityClass e.th32ProcessID
      if cur ≠ IDLE_PRIORITY_CLASS then
        (setPriorityWorld w e.th32ProcessID IDLE_PRIORITY_CLASS,
          [OsCall.openProc e.th32ProcessID true, OsCall.getPrio e.th32ProcessID cur,
            OsCall.setPrio e.th32ProcessID IDLE_PRIORITY_CLASS])
      else (w, [OsCall.openProc e.th32ProcessID true, OsCall.getPrio e.th32ProcessID cur])
    else (w, [OsCall.openProc e.th32ProcessID false])
  else (w, [])

/-- The `Process32First`/`Process32Next` iteration over the entries of one
snapshot.  The entry list is the snapshot taken when the function was
entered; only the world's priority state evolves while iterating. -/
def tamerScanEntries (w : ProcWorld) (procName : String) :
    List ProcEntry → ProcWorld × List OsCall
  | [] => (w, [])
  | e :: rest =>
    let step := enforceEntry w procName e
    let tail := tamerScanEntries step.1 procName rest
    (tail.1, step.2 ++ tail.2)

/-- `Tamer_SetProcessPriority`: takes one fresh toolhelp snapshot
(`CreateToolhelp32Snapshot`) and walks it, enforcing every entry whose
image name matches the rule's `procName`. -/
def Tamer_SetProcessPriority (w : ProcWorld) (proc : Tamer_Proc) :
    ProcWorld × List OsCall :=
  let scan := tamerScanEntries w proc.procName w.snapshot
  (scan.1, OsCall.takeSnapshot :: scan.2)

/-- The `LL_FOREACH(gTamer.config->procList, el) Tamer_SetProcessPriority(el)`
loop of `Tamer_ServiceProcess`: one call of `Tamer_SetProcessPriority` per
rule, in stored list order. -/
def enforcePass (w : ProcWorld) : List Tamer_Proc → ProcWorld × List OsCall
  | [] => (w, [])
  | r :: rs =>
    let one := Tamer_SetProcessPriority w r
    let rest := enforcePass one.1 rs
    (rest.1, one.2 ++ rest.2)

/-! ## Scheduler: `Tamer_ServiceProcess`, the service loop and `main` -/

/-- `Tamer_ServiceProcess`: refresh the configuration; if `Tamer_ReadConfig`
returned 0 or the process list is empty, return `false` without enforcing;
otherwise run one enforcement pass over the rule list and return `true`.
The result carries the updated configuration, the updated world, the OS
call trace of this cycle, and the C boolean return value. -/
def Tamer_ServiceProcess (cfg : Tamer_Config) (src : ConfigSource)
    (w : ProcWorld) (fuel : Nat) : Tamer_Config × ProcWorld × List OsCall × Bool :=
  let rc := Tamer_ReadConfig cfg src fuel
  if rc.2 = 0 then (rc.1, w, [], false)
  else if rc.1.procList = [] then (rc.1, w, [], false)
  else
    let pass := enforcePass w rc.1.procList
    (rc.1, pass.1, pass.2, true)

/-- State of the `while (gTamer.ServiceStatus.dwCurrentState == SERVICE_RUNNING)`
loop of `Tamer_ServiceMain`: `running` is
`dwCurrentState == SERVICE_RUNNING`; it is changed only by the external
control handler `Tamer_ServiceControl` (stop/shutdown), never by the loop
body. -/
structure ServiceState where
  running : Bool
  cfg : Tamer_Config
  world : ProcWorld

/-- One iteration of the service loop: if still running, execute
`Tamer_ServiceProcess` (its boolean result is ignored by the loop) and then
`Sleep(gTamer.config->interval)`; the loop flag is untouched. -/
def Tamer_ServiceLoopIter (st : ServiceState) (src : ConfigSource) (fuel : Nat) :
    ServiceState :=
  if st.running then
    let r := Tamer_ServiceProcess st.cfg src st.world fuel
    { running := st.running, cfg := r.1, world := r.2.1 }
  else st

/-- Outcome of `main` before any service loop runs. -/
inductive MainOutcome where
  | exitFailure
  | serviceStarted (cfg : Tamer_Config)
deriving DecidableEq

/-- The startup portion of `main` (no `-i`/`-u` argument): read the
configuration from scratch; if `Tamer_ReadConfig` returns 0, print an error
and return `EXIT_FAILURE` — the process terminates; otherwise proceed to
`StartServiceCtrlDispatcher` with the loaded configuration. -/
def mainStartup (src : ConfigSource) (fuel : Nat) : MainOutcome :=
  let rc := Tamer_ReadConfig initConfig src fuel
  if rc.2 = 0 then MainOutcome.exitFailure
  else MainOutcome.serviceStarted rc.1

/-! ## Trace observations -/

/-- The process ids for which the trace contains an `OpenProcess` attempt
(successful or not), in order. -/
def openAttempts (calls : List OsCall) : List Nat :=
  calls.filterMap fun c =>
    match c with
    | OsCall.openProc pid _ => some pid
    | _ => none

/-- The number of `CreateToolhelp32Snapshot` calls in a trace. -/
def snapCount (calls : List OsCall) : Nat :=
  (calls.filter fun c => c == OsCall.takeSnapshot).length

/-- The ids of the entries of an enumeration whose image name matches the
given rule name case-insensitively, in enumeration order. -/
def matchingPids (es : List ProcEntry) (name : String) : List Nat :=
  (es.filter fun e => striEq e.szExeFile name).map ProcEntry.th32ProcessID


/-! ## Concrete inputs used by counterexamples and witnesses -/

/-- A configuration source whose oracles all return their defaults (an ini
file with no relevant keys), with one-byte file content. -/
def srcNoKeys : ConfigSource :=
  { file := some [49]
    svcGetString := fun _ d => d
    svcGetInt := fun _ d => d
    procGetString := fun _ d => d
    procGetInt := fun _ d => d }

/-- An unreadable configuration source (`fopen` fails). -/
def srcUnreadable : ConfigSource :=
  { file := none
    svcGetString := fun _ d => d
    svcGetInt := fun _ d => d
    procGetString := fun _ d => d
    procGetInt := fun _ d => d }

/-- A previously loaded working configuration: one rule, nonzero digest. -/
def cfgLoaded : Tamer_Config :=
  { serviceDispalyName := "Process Tamer"
    serviceDescription := "Windows process taming service"
    interval := 10000
    crc32 := 1
    procList := [{ procName := "keep.exe", priority := 0 }] }

/-- A previously loaded configuration whose digest matches `srcNoKeys`. -/
def cfgMatchingDigest : Tamer_Config :=
  { serviceDispalyName := "Process Tamer"
    serviceDescription := "Windows process taming service"
    interval := 10000
    crc32 := Tamer_CRC2 [49]
    procList := [{ procName := "keep.exe", priority := 2 }] }

/-- A world with one live process matching `cfgLoaded`'s rule. -/
def wStale : ProcWorld :=
  { snapshot := [{ th32ProcessID := 5, szExeFile := "keep.exe" }]
    canOpen := fun _ => true
    getPriorityClass := fun _ => 32 }

/-- A rule whose configured target priority is `HIGH_PRIORITY_CLASS` (0x80),
different from `IDLE_PRIORITY_CLASS`. -/
def ruleHigh : Tamer_Proc := { procName := "foo.exe", priority := 128 }

/-- A world with one openable `foo.exe` process at `NORMAL_PRIORITY_CLASS`. -/
def wNorm : ProcWorld :=
  { snapshot := [{ th32ProcessID := 7, szExeFile := "foo.exe" }]
    canOpen := fun _ => true
    getPriorityClass := fun _ => 32 }

/-- A rule list with two rules (for counting enumeration snapshots). -/
def twoRules : List Tamer_Proc :=
  [{ procName := "a.exe", priority := 0 }, { procName := "b.exe", priority := 0 }]

/-- A running service-loop state. -/
def stRunning : ServiceState :=
  { running := true, cfg := cfgLoaded, world := wStale }

/-- A source defining `Process1_Name` and `Process3_Name` but not
`Process2_Name`. -/
def srcGap : ConfigSource :=
  { file := some [49]
    svcGetString := fun _ d => d
    svcGetInt := fun _ d => d
    procGetString := fun k d =>
      if k = "Process1_Name" then "one.exe"
      else if k = "Process3_Name" then "three.exe"
      else d
    procGetInt := fun k d => if k = "Process1_Prio" then 7 else d }

/-- A world with two live `a.exe` processes, of which pid 2 cannot be
opened, and pid 3 can. -/
def wTwoA : ProcWorld :=
  { snapshot := [{ th32ProcessID := 2, szExeFile := "a.exe" },
                 { th32ProcessID := 3, szExeFile := "a.exe" }]
    canOpen := fun p => p != 2
    getPriorityClass := fun _ => 32 }

/-- The rule matching both entries of `wTwoA`. -/
def ruleA : Tamer_Proc := { procName := "a.exe", priority := 0 }

/-- A source defining two contiguous rules that name the same image. -/
def srcDup : ConfigSource :=
  { file := some [49]
    svcGetString := fun _ d => d
    svcGetInt := fun _ d => d
    procGetString := fun k d =>
      if k = "Process1_Name" then "dup.exe"
      else if k = "Process2_Name" then "dup.exe"
      else d
    procGetInt := fun k d =>
      if k = "Process1_Prio" then 1
      else if k = "Process2_Prio" then 2
      else d }

/-- A world with two live `dup.exe` processes and one unrelated process. -/
def wDup : ProcWorld :=
  { snapshot := [{ th32ProcessID := 4, szExeFile := "dup.exe" },
                 { th32ProcessID := 6, szExeFile := "dup.exe" },
                 { th32ProcessID := 9, szExeFile := "other.exe" }]
    canOpen := fun _ => true
    getPriorityClass := fun _ => 32 }

/-! ## Helper lemmas -/

theorem openAttempts_append (a b : List OsCall) :
    openAttempts (a ++ b) = openAttempts a ++ openAttempts b :=
  List.filterMap_append a b _

theorem snapCount_append (a b : List OsCall) :
    snapCount (a ++ b) = snapCount a + snapCount b := by
  simp [snapCount, List.filter_append]

theorem enforceEntry_canOpen (w : ProcWorld) (n : String) (e : ProcEntry) :
    (enforceEntry w n e).1.canOpen = w.canOpen := by
  unfold enforceEntry
  dsimp only
  split <;> try rfl
  split <;> try rfl
  split <;> rfl

theorem enforceEntry_snapshot (w : ProcWorld) (n : String) (e : ProcEntry) :
    (enforceEntry w n e).1.snapshot = w.snapshot := by
  unfold enforceEntry
  dsimp only
  split <;> try rfl
  split <;> try rfl
  split <;> rfl

theorem tamerScanEntries_canOpen (n : String) (es : List ProcEntry) :
    ∀ w : ProcWorld, (tamerScanEntries w n es).1.canOpen = w.canOpen := by
  induction es with
  | nil => intro w; rfl
  | cons e rest ih =>
    intro w
    simp only [tamerScanEntries]
    rw [ih, enforceEntry_canOpen]

theorem tamerScanEntries_snapshot (n : String) (es : List ProcEntry) :
    ∀ w : ProcWorld, (tamerScanEntries w n es).1.snapshot = w.snapshot := by
  induction es with
  | nil => intro w; rfl
  | cons e rest ih =>
    intro w
    simp only [tamerScanEntries]
    rw [ih, enforceEntry_snapshot]

theorem openAttempts_enforceEntry (w : ProcWorld) (n : String) (e : ProcEntry) :
    openAttempts (enforceEntry w n e).2 =
      if striEq e.szExeFile n then [e.th32ProcessID] else [] := by
  unfold enforceEntry
  split <;> try (simp [openAttempts])
  split <;> try (simp [openAttempts])
  split <;> simp [openAttempts]

theorem matchingPids_cons (e : ProcEntry) (rest : List ProcEntry) (n : String) :
    matchingPids (e :: rest) n =
      (if striEq e.szExeFile n then [e.th32ProcessID] else []) ++ matchingPids rest n := by
  simp only [matchingPids, List.filter_cons]
  split <;> simp

theorem openAttempts_scan (n : String) (es : List ProcEntry) :
    ∀ w : ProcWorld, openAttempts (tamerScanEntries w n es).2 = matchingPids es n := by
  induction es with
  | nil => intro w; rfl
  | cons e rest ih =>
    intro w
    simp only [tamerScanEntries]
    rw [openAttempts_append, openAttempts_enforceEntry, ih, matchingPids_cons]

theorem snapCount_enforceEntry (w : ProcWorld) (n : String) (e : ProcEntry) :
    snapCount (enforceEntry w n e).2 = 0 := by
  unfold enforceEntry
  dsimp only
  split <;> try (simp [snapCount])
  split <;> try (simp [snapCount])
  split <;> simp [snapCount]

theorem snapCount_scan (n : String) (es : List ProcEntry) :
    ∀ w : ProcWorld, snapCount (tamerScanEntries w n es).2 = 0 := by
  induction es with
  | nil => intro w; rfl
  | cons e rest ih =>
    intro w
    simp only [tamerScanEntries]
    rw [snapCount_append, snapCount_enforceEntry, ih]

theorem snapCount_setProcessPriority (w : ProcWorld) (proc : Tamer_Proc) :
    snapCount (Tamer_SetProcessPriority w proc).2 = 1 := by
  have h := snapCount_scan proc.procName w.snapshot w
  simp only [Tamer_SetProcessPriority, snapCount, List.filter_cons] at h ⊢
  simp [h]

theorem setProcessPriority_snapshot (w : ProcWorld) (proc : Tamer_Proc) :
    (Tamer_SetProcessPriority w proc).1.snapshot = w.snapshot := by
  simp only [Tamer_SetProcessPriority]
  exact tamerScanEntries_snapshot proc.procName w.snapshot w

theorem setProcessPriority_canOpen (w : ProcWorld) (proc : Tamer_Proc) :
    (Tamer_SetProcessPriority w proc).1.canOpen = w.canOpen := by
  simp only [Tamer_SetProcessPriority]
  exact tamerScanEntries_canOpen proc.procName w.snapshot w

theorem snapCount_enforcePass (rules : List Tamer_Proc) :
    ∀ w : ProcWorld, snapCount (enforcePass w rules).2 = rules.length := by
  induction rules with
  | nil => intro w; rfl
  | cons r rest ih =>
    intro w
    simp only [enforcePass]
    rw [snapCount_append, snapCount_setProcessPriority, ih, List.length_cons]
    omega

theorem setPrio_mem_enforceEntry (w : ProcWorld) (n : String) (e : ProcEntry)
    (pid prio : Nat) (h : OsCall.setPrio pid prio ∈ (enforceEntry w n e).2) :
    prio = IDLE_PRIORITY_CLASS ∧ pid = e.th32ProcessID ∧
      w.canOpen e.th32ProcessID = true := by
  unfold enforceEntry at h
  dsimp only at h
  split at h
  case isFalse => simp at h
  case isTrue hmatch =>
    split at h
    case isFalse => simp at h
    case isTrue hopen =>
      split at h <;> simp at h <;> exact ⟨h.2, h.1, hopen⟩

theorem setPrio_mem_scan (n : String) (es : List ProcEntry) :
    ∀ (w : ProcWorld) (pid prio : Nat),
      OsCall.setPrio pid prio ∈ (tamerScanEntries w n es).2 →
        prio = IDLE_PRIORITY_CLASS ∧ w.canOpen pid = true := by
  induction es with
  | nil => intro w pid prio h; simp [tamerScanEntries] at h
  | cons e rest ih =>
    intro w pid prio h
    simp only [tamerScanEntries, List.mem_append] at h
    rcases h with h | h
    · obtain ⟨h1, h2, h3⟩ := setPrio_mem_enforceEntry w n e pid prio h
      exact ⟨h1, h2 ▸ h3⟩
    · have := ih (enforceEntry w n e).1 pid prio h
      rwa [enforceEntry_canOpen] at this

/-! ## Claim theorems -/

set_option maxRecDepth 200000

/-- C6: the digest function implements CRC-32/IEEE: it maps the empty input
to `0x00000000`, the ASCII bytes of `"123456789"` to `0xCBF43926`, and it is
deterministic — identical byte sequences always yield identical digests. -/
theorem crc32_ieee_vectors :
    Tamer_CRC2 [] = 0 ∧
    Tamer_CRC2 [49, 50, 51, 52, 53, 54, 55, 56, 57] = 0xCBF43926 ∧
    ∀ b1 b2 : List Nat, b1 = b2 → Tamer_CRC2 b1 = Tamer_CRC2 b2 :=
  ⟨by decide, by decide, fun _ _ h => congrArg Tamer_CRC2 h⟩

/-- Witness for C6 at a concrete input. -/
theorem crc32_ieee_vectors_witness : Tamer_CRC2 [49] = Tamer_CRC2 [49] :=
  crc32_ieee_vectors.2.2 [49] [49] rfl

/-- C8: when the source digest equals the stored digest (and is a valid,
nonzero digest), `Tamer_ReadConfig` leaves the configuration object — the
rule list and digest included — completely unchanged, performs no reparse,
and returns the existing rule count; calling it twice in succession returns
the same no-change result both times. -/
theorem refresh_noop_on_unchanged_digest (cfg : Tamer_Config) (src : ConfigSource)
    (fuel : Nat) (h0 : Tamer_GetFileCRC src.file ≠ 0)
    (hsame : Tamer_GetFileCRC src.file = cfg.crc32) :
    Tamer_ReadConfig cfg src fuel = (cfg, cfg.procList.length) ∧
    Tamer_ReadConfig (Tamer_ReadConfig cfg src fuel).1 src fuel =
      (cfg, cfg.procList.length) := by
  have h0x : cfg.crc32 ≠ 0 := hsame ▸ h0
  have h1 : Tamer_ReadConfig cfg src fuel = (cfg, cfg.procList.length) := by
    simp [Tamer_ReadConfig, hsame, h0x]
  exact ⟨h1, by rw [h1]; exact h1⟩

/-- Witness for C8: an unchanged one-byte source against the matching
stored digest. -/
theorem refresh_noop_on_unchanged_digest_witness :
    Tamer_ReadConfig cfgMatchingDigest srcNoKeys 3 =
      (cfgMatchingDigest, cfgMatchingDigest.procList.length) ∧
    Tamer_ReadConfig (Tamer_ReadConfig cfgMatchingDigest srcNoKeys 3).1 srcNoKeys 3 =
      (cfgMatchingDigest, cfgMatchingDigest.procList.length) :=
  refresh_noop_on_unchanged_digest cfgMatchingDigest srcNoKeys 3 (by decide) rfl

theorem buildProcList_stop (src : ConfigSource) (idx fuel : Nat)
    (h : (src.procGetString ("Process" ++ toString idx ++ "_Name") "").length = 0) :
    buildProcList src idx (fuel + 1) = [] := by
  simp only [buildProcList]
  rw [if_pos h]

theorem buildProcList_step (src : ConfigSource) (idx fuel : Nat)
    (h : (src.procGetString ("Process" ++ toString idx ++ "_Name") "").length ≠ 0) :
    buildProcList src idx (fuel + 1) =
      { procName := src.procGetString ("Process" ++ toString idx ++ "_Name") ""
        priority := src.procGetInt ("Process" ++ toString idx ++ "_Prio") 0 } ::
      buildProcList src (idx + 1) fuel := by
  simp only [buildProcList]
  rw [if_neg h]

/-- C7: rule parsing is contiguous in the index of `Process{N}_Name` and
stops at the first missing index: with `Process1_Name` and `Process3_Name`
defined but `Process2_Name` missing, a reload produces exactly one rule,
the one from index 1. -/
theorem parse_stops_at_first_missing_index (cfg : Tamer_Config) (src : ConfigSource)
    (fuel : Nat)
    (hread : Tamer_GetFileCRC src.file ≠ 0)
    (hchange : Tamer_GetFileCRC src.file ≠ cfg.crc32)
    (h1 : (src.procGetString "Process1_Name" "").length ≠ 0)
    (h2 : src.procGetString "Process2_Name" "" = "")
    (h3 : (src.procGetString "Process3_Name" "").length ≠ 0) :
    (Tamer_ReadConfig cfg src (fuel + 2)).1.procList =
      [{ procName := src.procGetString "Process1_Name" ""
         priority := src.procGetInt "Process1_Prio" 0 }] ∧
    (Tamer_ReadConfig cfg src (fuel + 2)).2 = 1 := by
  have k1n : ("Process" ++ toString (1 : Nat) ++ "_Name") = "Process1_Name" := by decide
  have k1p : ("Process" ++ toString (1 : Nat) ++ "_Prio") = "Process1_Prio" := by decide
  have k2n : ("Process" ++ toString (2 : Nat) ++ "_Name") = "Process2_Name" := by decide
  have hb2 : buildProcList src 2 (fuel + 1) = [] := by
    apply buildProcList_stop
    rw [k2n, h2]
    rfl
  have hb1 : buildProcList src 1 (fuel + 2) =
      [{ procName := src.procGetString "Process1_Name" ""
         priority := src.procGetInt "Process1_Prio" 0 }] := by
    have hs := buildProcList_step src 1 (fuel + 1) (by rwa [k1n])
    rw [k1n, k1p] at hs
    rw [hs, hb2]
  simp only [Tamer_ReadConfig]
  rw [if_neg hread, if_pos hchange]
  simp [hb1]

/-- Witness for C7: the concrete gapped source yields exactly the index-1
rule. -/
theorem parse_stops_at_first_missing_index_witness :
    (Tamer_ReadConfig cfgLoaded srcGap 3).1.procList =
      [{ procName := srcGap.procGetString "Process1_Name" ""
         priority := srcGap.procGetInt "Process1_Prio" 0 }] ∧
    (Tamer_ReadConfig cfgLoaded srcGap 3).2 = 1 :=
  parse_stops_at_first_missing_index cfgLoaded srcGap 1 (by decide) (by decide)
    (by decide) (by decide) (by decide)

/-- C1 counterexample: with a previously published rule list and digest, a
changed one-byte source in which the loader discovers zero rules makes
`Tamer_ReadConfig` empty the stored rule list and overwrite the stored
digest — the prior working configuration does not survive. -/
theorem readConfig_zero_rules_wipes_state_cex :
    Tamer_GetFileCRC srcNoKeys.file ≠ 0 ∧
    Tamer_GetFileCRC srcNoKeys.file ≠ cfgLoaded.crc32 ∧
    (Tamer_ReadConfig cfgLoaded srcNoKeys 3).2 = 0 ∧
    (Tamer_ReadConfig cfgLoaded srcNoKeys 3).1.procList ≠ cfgLoaded.procList ∧
    (Tamer_ReadConfig cfgLoaded srcNoKeys 3).1.crc32 ≠ cfgLoaded.crc32 := by decide

/-- C1 (amended): if `Tamer_ReadConfig` detects a changed digest and then
discovers zero rules, the previous rule list is discarded (the stored list
becomes empty), the stored digest is overwritten with the new digest, and
the function returns 0. -/
theorem readConfig_zero_rules_discards_previous (cfg : Tamer_Config)
    (src : ConfigSource) (fuel : Nat)
    (hread : Tamer_GetFileCRC src.file ≠ 0)
    (hchange : Tamer_GetFileCRC src.file ≠ cfg.crc32)
    (hempty : src.procGetString "Process1_Name" "" = "") :
    (Tamer_ReadConfig cfg src (fuel + 1)).1.procList = [] ∧
    (Tamer_ReadConfig cfg src (fuel + 1)).1.crc32 = Tamer_GetFileCRC src.file ∧
    (Tamer_ReadConfig cfg src (fuel + 1)).2 = 0 := by
  have k1n : ("Process" ++ toString (1 : Nat) ++ "_Name") = "Process1_Name" := by decide
  have hb : buildProcList src 1 (fuel + 1) = [] := by
    apply buildProcList_stop
    rw [k1n, hempty]
    rfl
  simp only [Tamer_ReadConfig]
  rw [if_neg hread, if_pos hchange]
  simp [hb]

/-- Witness for the amended C1. -/
theorem readConfig_zero_rules_discards_previous_witness :
    (Tamer_ReadConfig cfgLoaded srcNoKeys 3).1.procList = [] ∧
    (Tamer_ReadConfig cfgLoaded srcNoKeys 3).1.crc32 = Tamer_GetFileCRC srcNoKeys.file ∧
    (Tamer_ReadConfig cfgLoaded srcNoKeys 3).2 = 0 :=
  readConfig_zero_rules_discards_previous cfgLoaded srcNoKeys 2 (by decide) (by decide) rfl

/-- C2 counterexample: with a previously loaded rule list, an unreadable
source makes `Tamer_ServiceProcess` return `false` with an empty OS call
trace — no enforcement pass runs against the stale rules, even though a
live process matches them. -/
theorem readError_skips_enforcement_cex :
    cfgLoaded.procList ≠ [] ∧
    matchingPids wStale.snapshot "keep.exe" ≠ [] ∧
    (Tamer_ServiceProcess cfgLoaded srcUnreadable wStale 3).2.2.1 = [] ∧
    (Tamer_ServiceProcess cfgLoaded srcUnreadable wStale 3).2.2.2 = false := by decide

/-- C2 (amended): on a read error (`Tamer_GetFileCRC` is 0) the previously
loaded rule list remains stored untouched, but the cycle's enforcement is
skipped — `Tamer_ReadConfig` returns 0 and `Tamer_ServiceProcess` returns
`false` with no OS calls, whether or not a rule list exists. -/
theorem readError_retains_rules_skips_enforcement (cfg : Tamer_Config)
    (src : ConfigSource) (w : ProcWorld) (fuel : Nat)
    (h : Tamer_GetFileCRC src.file = 0) :
    Tamer_ReadConfig cfg src fuel = (cfg, 0) ∧
    Tamer_ServiceProcess cfg src w fuel = (cfg, w, [], false) := by
  have h1 : Tamer_ReadConfig cfg src fuel = (cfg, 0) := by
    simp [Tamer_ReadConfig, h]
  refine ⟨h1, ?_⟩
  simp [Tamer_ServiceProcess, h1]

/-- Witness for the amended C2. -/
theorem readError_retains_rules_skips_enforcement_witness :
    Tamer_ReadConfig cfgLoaded srcUnreadable 3 = (cfgLoaded, 0) ∧
    Tamer_ServiceProcess cfgLoaded srcUnreadable wStale 3 =
      (cfgLoaded, wStale, [], false) :=
  readError_retains_rules_skips_enforcement cfgLoaded srcUnreadable wStale 3 rfl

/-- C3 counterexample: a rule whose configured target priority is 128
(`HIGH_PRIORITY_CLASS`) is enforced by setting the matching process to
`IDLE_PRIORITY_CLASS` (64), not to the rule's target: the trace contains
`setPrio 7 64` and no `setPrio 7 128`, although the current priority (32)
differs from the configured target. -/
theorem enforce_ignores_rule_priority_cex :
    ruleHigh.priority = 128 ∧
    wNorm.getPriorityClass 7 = 32 ∧
    (Tamer_SetProcessPriority wNorm ruleHigh).2 =
      [OsCall.takeSnapshot, OsCall.openProc 7 true, OsCall.getPrio 7 32,
        OsCall.setPrio 7 64] ∧
    OsCall.setPrio 7 128 ∉ (Tamer_SetProcessPriority wNorm ruleHigh).2 := by decide

/-- C3 (amended): for every enumerated process whose image name matches a
rule case-insensitively and exactly, enforcement reads its current priority
class and, if it differs from `IDLE_PRIORITY_CLASS`, sets it to
`IDLE_PRIORITY_CLASS`; the rule's parsed `Process{N}_Prio` value is ignored
— every priority-set call targets `IDLE_PRIORITY_CLASS` and the behaviour
is identical for any two parsed priorities. -/
theorem enforce_targets_idle_priority :
    (∀ (w : ProcWorld) (proc : Tamer_Proc) (pid prio : Nat),
      OsCall.setPrio pid prio ∈ (Tamer_SetProcessPriority w proc).2 →
        prio = IDLE_PRIORITY_CLASS ∧ w.canOpen pid = true) ∧
    (∀ (w : ProcWorld) (n : String) (p q : Int),
      Tamer_SetProcessPriority w { procName := n, priority := p } =
        Tamer_SetProcessPriority w { procName := n, priority := q }) ∧
    (∀ (w : ProcWorld) (n : String) (e : ProcEntry),
      striEq e.szExeFile n = true → w.canOpen e.th32ProcessID = true →
      w.getPriorityClass e.th32ProcessID ≠ IDLE_PRIORITY_CLASS →
      enforceEntry w n e =
        (setPriorityWorld w e.th32ProcessID IDLE_PRIORITY_CLASS,
          [OsCall.openProc e.th32ProcessID true,
            OsCall.getPrio e.th32ProcessID (w.getPriorityClass e.th32ProcessID),
            OsCall.setPrio e.th32ProcessID IDLE_PRIORITY_CLASS])) := by
  refine ⟨?_, ?_, ?_⟩
  · intro w proc pid prio h
    simp only [Tamer_SetProcessPriority, List.mem_cons] at h
    rcases h with h | h
    · simp at h
    · exact setPrio_mem_scan proc.procName w.snapshot w pid prio h
  · intro w n p q
    rfl
  · intro w n e hm ho hp
    unfold enforceEntry
    dsimp only
    rw [if_pos hm, if_pos ho, if_pos hp]

/-- Witness for the amended C3. -/
theorem enforce_targets_idle_priority_witness :
    (64 : Nat) = IDLE_PRIORITY_CLASS ∧ wNorm.canOpen 7 = true :=
  enforce_targets_idle_priority.1 wNorm ruleHigh 7 64 (by decide)

/-- C4 counterexample: an enforcement pass over a rule set with two rules
takes two enumeration snapshots, not exactly one. -/
theorem snapshot_per_rule_cex :
    twoRules.length = 2 ∧
    snapCount (enforcePass wNorm twoRules).2 = 2 ∧ (2 : Nat) ≠ 1 := by decide

/-- C4 (amended): one enforcement pass takes one fresh enumeration snapshot
per rule — a pass over n rules performs n snapshot calls, and each single
rule's scan performs exactly one, iterating the entry list taken at its
start without refreshing it. -/
theorem snapshot_count_equals_rule_count :
    (∀ (w : ProcWorld) (rules : List Tamer_Proc),
      snapCount (enforcePass w rules).2 = rules.length) ∧
    (∀ (w : ProcWorld) (proc : Tamer_Proc),
      snapCount (Tamer_SetProcessPriority w proc).2 = 1) :=
  ⟨fun w rules => snapCount_enforcePass rules w,
    fun w proc => snapCount_setProcessPriority w proc⟩

/-- C5 counterexample: when the very first configuration read fails (the
source is unreadable and no rule set has ever been loaded), `main` returns
`EXIT_FAILURE` — execution ends without any external stop signal instead of
skipping the cycle, sleeping and retrying. -/
theorem startup_read_failure_exits_cex :
    mainStartup srcUnreadable 3 = MainOutcome.exitFailure := by decide

/-- C5 (amended): once the service loop is running, no configuration or
per-process error terminates it — the loop iteration leaves the running
flag untouched and the loop stops only when the external control handler
has cleared it; however, a refresh failure at startup, before the loop (no
rule set yet loaded), terminates the program with `EXIT_FAILURE`. -/
theorem loop_survives_errors_until_stop :
    (∀ (st : ServiceState) (src : ConfigSource) (fuel : Nat),
      st.running = true → (Tamer_ServiceLoopIter st src fuel).running = true) ∧
    (∀ (st : ServiceState) (src : ConfigSource) (fuel : Nat),
      st.running = false → Tamer_ServiceLoopIter st src fuel = st) ∧
    (∀ (src : ConfigSource) (fuel : Nat),
      (Tamer_ReadConfig initConfig src fuel).2 = 0 →
        mainStartup src fuel = MainOutcome.exitFailure) := by
  refine ⟨?_, ?_, ?_⟩
  · intro st src fuel h
    simp [Tamer_ServiceLoopIter, h]
  · intro st src fuel h
    simp [Tamer_ServiceLoopIter, h]
  · intro src fuel h
    simp [mainStartup, h]

/-- Witness for the amended C5. -/
theorem loop_survives_errors_until_stop_witness :
    (Tamer_ServiceLoopIter stRunning srcUnreadable 3).running = true ∧
    mainStartup srcUnreadable 3 = MainOutcome.exitFailure :=
  ⟨loop_survives_errors_until_stop.1 stRunning srcUnreadable 3 rfl,
    loop_survives_errors_until_stop.2.2 srcUnreadable 3 (by decide)⟩

theorem openAttempts_setProcessPriority (w : ProcWorld) (proc : Tamer_Proc) :
    openAttempts (Tamer_SetProcessPriority w proc).2 =
      matchingPids w.snapshot proc.procName := by
  have h : openAttempts (OsCall.takeSnapshot :: (tamerScanEntries w proc.procName w.snapshot).2) =
      openAttempts (tamerScanEntries w proc.procName w.snapshot).2 := rfl
  simp only [Tamer_SetProcessPriority]
  rw [h, openAttempts_scan]

/-- C9: during one rule's enforcement scan, every snapshot entry whose image
name matches the rule gets an `OpenProcess` attempt — a matched process that
cannot be opened is skipped without aborting the scan, all remaining matches
are still visited, and several live processes sharing one image name are
each enforced independently; moreover a priority-set call only ever happens
on a process that could be opened. -/
theorem enforce_visits_all_matches_skips_unopenable (w : ProcWorld)
    (proc : Tamer_Proc) :
    openAttempts (Tamer_SetProcessPriority w proc).2 =
      matchingPids w.snapshot proc.procName ∧
    ∀ pid prio : Nat,
      OsCall.setPrio pid prio ∈ (Tamer_SetProcessPriority w proc).2 →
        w.canOpen pid = true := by
  refine ⟨openAttempts_setProcessPriority w proc, ?_⟩
  intro pid prio h
  simp only [Tamer_SetProcessPriority, List.mem_cons] at h
  rcases h with h | h
  · simp at h
  · exact (setPrio_mem_scan proc.procName w.snapshot w pid prio h).2

/-- Witness for C9: both `a.exe` processes are attempted (the unopenable
pid 2 does not abort the scan; pid 3 is still visited and enforced). -/
theorem enforce_visits_all_matches_skips_unopenable_witness :
    openAttempts (Tamer_SetProcessPriority wTwoA ruleA).2 =
      matchingPids wTwoA.snapshot ruleA.procName ∧
    wTwoA.canOpen 3 = true :=
  ⟨(enforce_visits_all_matches_skips_unopenable wTwoA ruleA).1,
    (enforce_visits_all_matches_skips_unopenable wTwoA ruleA).2 3 64 (by decide)⟩

/-- C10: duplicate rules are kept with all-apply semantics — the loader
appends one rule per contiguous index without deduplicating by name, so a
source naming the same image at indices 1 and 2 yields both rules in stored
order, and an enforcement pass applies each of them in turn: each rule
triggers `OpenProcess` attempts on all live processes matching that image
name. -/
theorem duplicate_rules_all_apply (cfg : Tamer_Config) (src : ConfigSource)
    (fuel : Nat) (s : String) (w : ProcWorld)
    (hread : Tamer_GetFileCRC src.file ≠ 0)
    (hchange : Tamer_GetFileCRC src.file ≠ cfg.crc32)
    (hs : s.length ≠ 0)
    (h1 : src.procGetString "Process1_Name" "" = s)
    (h2 : src.procGetString "Process2_Name" "" = s)
    (h3 : src.procGetString "Process3_Name" "" = "") :
    (Tamer_ReadConfig cfg src (fuel + 3)).1.procList =
      [{ procName := s, priority := src.procGetInt "Process1_Prio" 0 },
        { procName := s, priority := src.procGetInt "Process2_Prio" 0 }] ∧
    openAttempts (enforcePass w (Tamer_ReadConfig cfg src (fuel + 3)).1.procList).2 =
      matchingPids w.snapshot s ++ matchingPids w.snapshot s := by
  have k1n : ("Process" ++ toString (1 : Nat) ++ "_Name") = "Process1_Name" := by decide
  have k1p : ("Process" ++ toString (1 : Nat) ++ "_Prio") = "Process1_Prio" := by decide
  have k2n : ("Process" ++ toString (2 : Nat) ++ "_Name") = "Process2_Name" := by decide
  have k2p : ("Process" ++ toString (2 : Nat) ++ "_Prio") = "Process2_Prio" := by decide
  have k3n : ("Process" ++ toString (3 : Nat) ++ "_Name") = "Process3_Name" := by decide
  have hb3 : buildProcList src 3 (fuel + 1) = [] := by
    apply buildProcList_stop
    rw [k3n, h3]
    rfl
  have hb2 : buildProcList src 2 (fuel + 2) =
      [{ procName := s, priority := src.procGetInt "Process2_Prio" 0 }] := by
    have hstep := buildProcList_step src 2 (fuel + 1) (by rw [k2n, h2]; exact hs)
    rw [k2n, k2p, h2] at hstep
    rw [hstep, hb3]
  have hb1 : buildProcList src 1 (fuel + 3) =
      [{ procName := s, priority := src.procGetInt "Process1_Prio" 0 },
        { procName := s, priority := src.procGetInt "Process2_Prio" 0 }] := by
    have hstep := buildProcList_step src 1 (fuel + 2) (by rw [k1n, h1]; exact hs)
    rw [k1n, k1p, h1] at hstep
    rw [hstep, hb2]
  have hps : (Tamer_ReadConfig cfg src (fuel + 3)).1.procList =
      [{ procName := s, priority := src.procGetInt "Process1_Prio" 0 },
        { procName := s, priority := src.procGetInt "Process2_Prio" 0 }] := by
    simp only [Tamer_ReadConfig]
    rw [if_neg hread, if_pos hchange]
    simpa using hb1
  refine ⟨hps, ?_⟩
  rw [hps]
  simp only [enforcePass, List.append_nil]
  rw [openAttempts_append, openAttempts_setProcessPriority,
    openAttempts_setProcessPriority, setProcessPriority_snapshot]

/-- Witness for C10: the concrete duplicate source against a world with two
live `dup.exe` processes. -/
theorem duplicate_rules_all_apply_witness :
    (Tamer_ReadConfig initConfig srcDup 4).1.procList =
      [{ procName := "dup.exe", priority := srcDup.procGetInt "Process1_Prio" 0 },
        { procName := "dup.exe", priority := srcDup.procGetInt "Process2_Prio" 0 }] ∧
    openAttempts (enforcePass wDup (Tamer_ReadConfig initConfig srcDup 4).1.procList).2 =
      matchingPids wDup.snapshot "dup.exe" ++ matchingPids wDup.snapshot "dup.exe" :=
  duplicate_rules_all_apply initConfig srcDup 1 "dup.exe" wDup (by decide) (by decide)
    (by decide) rfl rfl rfl
